import Mathlib

/-!
Verification of the conda-project environment-management logic.

This file gives a shallow embedding of the state-comparison and
orchestration code of the repository:

* `Environment.is_locked`, `Environment.is_prepared`, `Environment.lock`
  and `Environment.prepare` from `src/conda_project/models.py`;
* descriptor parsing and validation (`BaseYaml.parse_yaml`,
  `EnvironmentYaml.only_pip_key_allowed`) from
  `src/conda_project/project_file.py`;
* the project facade (`CondaProject.__init__`, `commands`,
  `default_environment`, `check`) from `src/conda_project/project.py`.

External collaborators are out of scope of the repository and are passed
in as explicit data: the conda-lock library is an abstract lock-spec
builder (`mkSpec`) plus the parsed lockfile contents (`Lock`), the conda
executable's `list --explicit` output is a list of captured lines, and
the filesystem is an `Option` value per path (present/absent).
-/

/-- Dependency entry of an environment YAML file: either a plain string
specifier or a mapping from a key to a list of specifiers
(`EnvironmentYaml.dependencies` in `src/conda_project/project_file.py`). -/
inductive Dep where
  | str (s : String)
  | map (entries : List (String × List String))
deriving Repr, DecidableEq

/-- Parsed contents of one environment YAML source file
(`EnvironmentYaml` in `src/conda_project/project_file.py`). The
`prefixPath` field embeds the Python field of that record whose name is
reserved in this development. -/
structure EnvironmentYamlData where
  name : Option String := none
  channels : Option (List String) := none
  dependencies : List Dep := []
  variables_ : List (String × String) := []
  prefixPath : Option String := none
  platforms : Option (List String) := none
deriving Repr, DecidableEq

/-- First-seen-order deduplicated merge of the `channels` lists of all
source files, as computed by the loop in `Environment._overrides`
(`src/conda_project/models.py`). -/
def mergeChannels (sources : List EnvironmentYamlData) : List String :=
  sources.foldl
    (fun acc env =>
      (env.channels.getD []).foldl
        (fun acc c => if acc.contains c then acc else acc ++ [c]) acc)
    []

/-- Union of the declared `platforms` of all source files, kept as a
deduplicated list: `Environment._overrides` only tests this set for
emptiness. -/
def mergePlatforms (sources : List EnvironmentYamlData) : List String :=
  sources.foldl
    (fun acc env =>
      (env.platforms.getD []).foldl
        (fun acc p => if acc.contains p then acc else acc ++ [p]) acc)
    []

/-- The `(channel_overrides, platform_overrides)` pair returned by
`Environment._overrides`: substitute `["defaults"]` when no source file
declares a channel, and the default platform set when no source file
declares a platform.  `defaultPlatforms` stands for the module-level
`DEFAULT_PLATFORMS` set (which includes the current platform). -/
def overridesOf (sources : List EnvironmentYamlData)
    (defaultPlatforms : List String) :
    Option (List String) × Option (List String) :=
  (if mergeChannels sources = [] then some ["defaults"] else none,
   if mergePlatforms sources = [] then some defaultPlatforms else none)

/-- Abstract result of conda-lock's `make_lock_spec`: the requested
platforms together with the content hash per platform
(`content_hash_for_platform`). -/
structure LockSpec where
  platforms : List String
  content_hash_for_platform : String → Nat

/-- Metadata block of a parsed conda-lock file: recorded platforms and
the stored content hash per platform. -/
structure LockMetadata where
  platforms : List String
  content_hash : String → Nat

/-- Parsed conda-lock file (`parse_conda_lock_file` result): metadata
plus, per platform, the lines produced by
`render_lockfile_for_platform(..., kind="explicit")`. -/
structure Lock where
  metadata : LockMetadata
  rendered : String → List String

/-- Builder abstracting conda-lock's `make_lock_spec`: from the source
files and the channel/platform overrides to a lock specification. -/
def MkSpec : Type :=
  List EnvironmentYamlData → Option (List String) → Option (List String) → LockSpec

/-- Embedding of `Environment.is_locked` (`src/conda_project/models.py`).
`lockfile` is the parsed contents of the file at the lockfile path, or
`none` when no file exists there. -/
def is_locked (mkSpec : MkSpec) (sources : List EnvironmentYamlData)
    (defaultPlatforms : List String) (lockfile : Option Lock) : Bool :=
  let ov := overridesOf sources defaultPlatforms
  match lockfile with
  | some lk =>
      let spec := mkSpec sources ov.1 ov.2
      spec.platforms.all fun p =>
        lk.metadata.platforms.contains p &&
          (spec.content_hash_for_platform p == lk.metadata.content_hash p)
  | none => false

/-- Python's `p.split("#")[0]`: the text of `p` before the first `#`
character (all of `p` when there is none), used to strip
source-annotation comments from rendered lockfile lines in
`Environment.is_prepared`. -/
def stripComment (p : String) : String :=
  String.mk (p.toList.takeWhile (fun c => c ≠ '#'))

/-- Embedding of `Environment.is_prepared` (`src/conda_project/models.py`).
`historyExists` models the existence of the `conda-meta/history` marker
in the prefix; `installedLines` is the captured stdout of
`conda list -p <prefix> --explicit` split into lines.  The inner `none`
branch is unreachable because `is_locked` is `false` for a missing
lockfile. -/
def is_prepared (mkSpec : MkSpec) (sources : List EnvironmentYamlData)
    (defaultPlatforms : List String) (lockfile : Option Lock)
    (historyExists : Bool) (installedLines : List String)
    (currentPlatform : String) : Bool :=
  if historyExists then
    if is_locked mkSpec sources defaultPlatforms lockfile then
      match lockfile with
      | some lk =>
          installedLines.drop 3 ==
            ((lk.rendered currentPlatform).drop 3).map stripComment
      | none => false
    else false
  else false

/-- Python `repr` of a list of strings, as interpolated by the f-string
`f"supplied channels: {channel_overrides or specified_channels}"` in
`Environment.lock`. -/
def pyListRepr (xs : List String) : String :=
  "[" ++ String.intercalate ", " (xs.map fun s => "\x27" ++ s ++ "\x27") ++ "]"

/-- Message of the `CondaProjectError` raised by `Environment.lock` when
conda-lock's `make_lock_files` fails: the underlying message with the
phrase `target environment` replaced by a reference to the supplied
channels, prefixed by a fixed header. -/
def lockErrorMessage (message : String) (substChannels : List String) : String :=
  "Project failed to lock\n" ++
    message.replace "target environment"
      ("supplied channels: " ++ pyListRepr substChannels)

/-- Outcome of one invocation of conda-lock's `make_lock_files` (an
external tool): it either produces a lockfile or raises a subprocess
error whose JSON output carries a message. -/
inductive LockGenResult where
  | success (lk : Lock)
  | failure (message : String)

/-- Observable result of `Environment.lock`: the raised
`CondaProjectError` message if any, and the contents at the real
lockfile path afterwards. -/
structure LockOutcome where
  err : Option String
  lockfile : Option Lock

/-- Embedding of `Environment.lock` (`src/conda_project/models.py`).
The generator writes to a temporary directory, so on failure nothing has
touched the real lockfile path; on success `shutil.copy` installs the
fresh lockfile there.  The early return fires when already locked and
not forced. -/
def lock (mkSpec : MkSpec) (sources : List EnvironmentYamlData)
    (defaultPlatforms : List String) (gen : LockGenResult) (force : Bool)
    (lockfile : Option Lock) : LockOutcome :=
  if is_locked mkSpec sources defaultPlatforms lockfile && !force then
    { err := none, lockfile := lockfile }
  else
    match gen with
    | .success lk => { err := none, lockfile := some lk }
    | .failure message =>
        { err := some (lockErrorMessage message
            ((overridesOf sources defaultPlatforms).1.getD
              (mergeChannels sources))),
          lockfile := lockfile }

/-- Observable side effects of `Environment.prepare` beyond its return
value: invoking the lock generator, the `conda create` call (with its
`--force` flag), writing the `.gitignore` marker into the prefix, and
the `conda env config vars set` call. -/
inductive Effect where
  | lockGen
  | condaCreate (force : Bool)
  | writeGitignore
  | setVariables (vars : List (String × String))
deriving Repr, DecidableEq

/-- Python `dict.update` on an association list: existing keys keep
their position but take the new value, new keys are appended. -/
def updateVar (acc : List (String × String)) (kv : String × String) :
    List (String × String) :=
  if acc.any (fun p => p.1 == kv.1) then
    acc.map (fun p => if p.1 == kv.1 then (p.1, kv.2) else p)
  else acc ++ [kv]

/-- The merged `variables` mapping built by the loop in
`Environment.prepare`: each source file's variables update the
accumulator in order. -/
def mergeVariables (sources : List EnvironmentYamlData) :
    List (String × String) :=
  sources.foldl (fun acc env => env.variables_.foldl updateVar acc) []

/-- Inputs of one `Environment.prepare` call: the environment's static
data plus the modelled external world (lockfile contents, prefix marker,
installed package listing, current platform, generator behaviour). -/
structure PrepareCtx where
  mkSpec : MkSpec
  sources : List EnvironmentYamlData
  defaultPlatforms : List String
  lockfile : Option Lock
  historyExists : Bool
  installedLines : List String
  currentPlatform : String
  prefixPath : String
  gen : LockGenResult

/-- Observable result of `Environment.prepare`: the returned prefix path
or the raised error message, the side effects performed in order, and
the final contents at the lockfile path. -/
structure PrepareOutcome where
  result : Except String String
  effects : List Effect
  lockfile : Option Lock

/-- Message of the `CondaProjectError` raised by `Environment.prepare`
when the current platform is not among the locked platforms. -/
def platformMessage (currentPlatform : String) : String :=
  "Your current platform, " ++ currentPlatform ++
    ", is not in the supported locked platforms.\n" ++
    "You may need to edit your environment source files and run " ++
    "\x27conda project lock\x27 again."

/-- Tail of `Environment.prepare` from the `parse_conda_lock_file` call
on: platform check, `conda create`, `.gitignore` write, and variable
application.  The `none` branch is unreachable in practice (the lockfile
exists at this point) and models `parse_conda_lock_file` failing on a
missing file. -/
def createSteps (ctx : PrepareCtx) (lf : Option Lock)
    (preEffects : List Effect) (force : Bool) : PrepareOutcome :=
  match lf with
  | none =>
      { result := .error "missing lockfile", effects := preEffects,
        lockfile := lf }
  | some lk =>
      if lk.metadata.platforms.contains ctx.currentPlatform then
        let vars := mergeVariables ctx.sources
        { result := .ok ctx.prefixPath,
          effects := preEffects ++
            [Effect.condaCreate force, Effect.writeGitignore] ++
            (if vars.isEmpty then [] else [Effect.setVariables vars]),
          lockfile := lf }
      else
        { result := .error (platformMessage ctx.currentPlatform),
          effects := preEffects, lockfile := lf }

/-- Middle of `Environment.prepare`: the two short-circuits.  When the
environment is already prepared and not forced, or when the prefix
carries the history marker but is inconsistent and not forced, the
existing prefix is returned unchanged; otherwise creation proceeds. -/
def prepareAfterLock (ctx : PrepareCtx) (lf : Option Lock)
    (effs : List Effect) (force : Bool) : PrepareOutcome :=
  if is_prepared ctx.mkSpec ctx.sources ctx.defaultPlatforms lf
      ctx.historyExists ctx.installedLines ctx.currentPlatform then
    if !force then
      { result := .ok ctx.prefixPath, effects := effs, lockfile := lf }
    else createSteps ctx lf effs force
  else if ctx.historyExists && !force then
    { result := .ok ctx.prefixPath, effects := effs, lockfile := lf }
  else createSteps ctx lf effs force

/-- Embedding of `Environment.prepare` (`src/conda_project/models.py`).
If the environment is not locked, `lock` runs first (with `force=False`)
and its error, if any, propagates; all later checks observe the lockfile
contents that `lock` left behind. -/
def prepare (ctx : PrepareCtx) (force : Bool) : PrepareOutcome :=
  if is_locked ctx.mkSpec ctx.sources ctx.defaultPlatforms ctx.lockfile then
    prepareAfterLock ctx ctx.lockfile [] force
  else
    let out := lock ctx.mkSpec ctx.sources ctx.defaultPlatforms ctx.gen
      false ctx.lockfile
    match out.err with
    | some e =>
        { result := .error e, effects := [Effect.lockGen],
          lockfile := out.lockfile }
    | none => prepareAfterLock ctx out.lockfile [Effect.lockGen] force

/-- Scalar or structured YAML value, as produced by `yaml.load` for a
descriptor file.  Top-level descriptor documents are mappings and are
represented separately as `List (String × YamlVal)`. -/
inductive YamlVal where
  | nullV
  | boolV (b : Bool)
  | strV (s : String)
  | listV (items : List YamlVal)
  | mapV (entries : List (String × YamlVal))

/-- Value stored under key `k` in a YAML mapping, if any. -/
def lookupKey (entries : List (String × YamlVal)) (k : String) :
    Option YamlVal :=
  (entries.find? (fun p => p.1 == k)).map (fun p => p.2)

/-- Read a YAML value as a string (pydantic `str` field, strict). -/
def asStr : YamlVal → Option String
  | .strV s => some s
  | _ => none

/-- Read a YAML value as a list of strings (pydantic `List[str]` or
`List[Path]` field). -/
def asStrList : YamlVal → Option (List String)
  | .listV items => items.mapM asStr
  | _ => none

/-- Read a YAML value as an optional string (pydantic `Optional[str]`
field value: a string or null). -/
def asStrOrNull : YamlVal → Option (Option String)
  | .strV s => some (some s)
  | .nullV => some none
  | _ => none

/-- Parsed `commands` entry of a project file: either the `Command`
record (`cmd` plus optional `environment`) or a plain command string
(`Union[Command, str]` in `src/conda_project/project_file.py`). -/
inductive CmdOrStr where
  | cmdObj (cmd : String) (environment : Option String)
  | plain (s : String)
deriving Repr, DecidableEq

/-- Parsed contents of a project descriptor file (`CondaProjectYaml` in
`src/conda_project/project_file.py`).  Mappings keep file order. -/
structure CondaProjectYamlData where
  name : String
  environments : List (String × List String)
  variables_ : List (String × Option String) := []
  commands : List (String × CmdOrStr) := []
deriving Repr, DecidableEq

/-- Keys accepted by the `CondaProjectYaml` schema; any other key is an
`extra fields not permitted` validation error (`Config.extra = "forbid"`). -/
def allowedProjectKeys : List String :=
  ["name", "environments", "variables", "commands"]

/-- Read a YAML value as the `environments` mapping: environment name to
list of source-file paths. -/
def asEnvironments : YamlVal → Option (List (String × List String))
  | .mapV entries =>
      entries.mapM (fun p => (asStrList p.2).map (fun l => (p.1, l)))
  | _ => none

/-- Read a YAML value as the `variables` mapping of a project file
(`Dict[str, Optional[str]]`). -/
def asVariables : YamlVal → Option (List (String × Option String))
  | .mapV entries =>
      entries.mapM (fun p => (asStrOrNull p.2).map (fun v => (p.1, v)))
  | _ => none

/-- Read a YAML value as one `commands` entry: a plain string, or a map
with a required `cmd` string and an optional `environment` that is a
string or null; extra keys are forbidden. -/
def asCommand : YamlVal → Option CmdOrStr
  | .strV s => some (.plain s)
  | .mapV entries =>
      if entries.all (fun p => p.1 == "cmd" || p.1 == "environment") then
        match lookupKey entries "cmd" with
        | some (.strV c) =>
            match lookupKey entries "environment" with
            | none => some (.cmdObj c none)
            | some .nullV => some (.cmdObj c none)
            | some (.strV e) => some (.cmdObj c (some e))
            | some _ => none
        | _ => none
      else none
  | _ => none

/-- Read a YAML value as the `commands` mapping of a project file. -/
def asCommandsMap : YamlVal → Option (List (String × CmdOrStr))
  | .mapV entries =>
      entries.mapM (fun p => (asCommand p.2).map (fun c => (p.1, c)))
  | _ => none

/-- Pydantic validation of a `CondaProjectYaml` document (a YAML
mapping): unknown keys are rejected, `name` and `environments` are
required with the right shapes, `variables` and `commands` default to
empty mappings.  The error string stands for pydantic's validation
detail. -/
def validateCondaProjectYaml (d : List (String × YamlVal)) :
    Except String CondaProjectYamlData :=
  match d.find? (fun p => !(allowedProjectKeys.contains p.1)) with
  | some p => .error ("extra fields not permitted: " ++ p.1)
  | none =>
  match lookupKey d "name" with
  | none => .error "name: field required"
  | some nv =>
  match asStr nv with
  | none => .error "name: str type expected"
  | some nm =>
  match lookupKey d "environments" with
  | none => .error "environments: field required"
  | some ev =>
  match asEnvironments ev with
  | none => .error "environments: invalid value"
  | some envs =>
  match (match lookupKey d "variables" with
         | none => some []
         | some v => asVariables v) with
  | none => .error "variables: invalid value"
  | some vars =>
  match (match lookupKey d "commands" with
         | none => some []
         | some v => asCommandsMap v) with
  | none => .error "commands: invalid value"
  | some cmds =>
      .ok { name := nm, environments := envs, variables_ := vars,
            commands := cmds }

/-- Embedding of `BaseYaml.parse_yaml` (`src/conda_project/project_file.py`)
for a descriptor class named `className` whose pydantic validation is
`validate`.  `content` is the `yaml.load` result: `none` for an empty
file, otherwise the document's top-level mapping. -/
def parse_yaml {α : Type} (className : String) (fn : String)
    (validate : List (String × YamlVal) → Except String α)
    (content : Option (List (String × YamlVal))) : Except String α :=
  match content with
  | none =>
      .error ("Failed to read " ++ fn ++ " as " ++ className ++
        ". The file appears to be empty.")
  | some d =>
      match validate d with
      | .error e =>
          .error ("Failed to read " ++ fn ++ " as " ++ className ++ "\n" ++ e)
      | .ok x => .ok x

/-- Python's `item.keys() == {"pip"}` on a dependency map: the key set
is exactly the singleton `pip`. -/
def keysArePipOnly (entries : List (String × List String)) : Bool :=
  entries.all (fun p => p.1 == "pip") && entries.any (fun p => p.1 == "pip")

/-- Embedding of the `EnvironmentYaml.only_pip_key_allowed` validator
(`src/conda_project/project_file.py`): scan the dependency list in
order and raise on the first map entry whose key set is not exactly
`pip`.  The Python message interpolates the offending item; the
constant text is kept here. -/
def only_pip_key_allowed (v : List Dep) : Except String (List Dep) :=
  match v.find? (fun item =>
    match item with
    | .str _ => false
    | .map entries => !keysArePipOnly entries) with
  | some _ =>
      .error ("The dependencies key contains an invalid map. " ++
        "Only \"pip:\" is allowed.")
  | none => .ok v

/-- Runtime `Environment` record as built by `CondaProject.environments`
(`src/conda_project/project.py`): resolved source paths, env prefix,
lockfile path and condarc path, all joined from the project directory.
Paths are modelled as strings joined with `/`. -/
structure EnvironmentModel where
  name : String
  sources : List String
  prefixPath : String
  lockfilePath : String
  condarc : String
deriving Repr, DecidableEq

/-- Construction of one `Environment` in `CondaProject.environments`. -/
def mkEnvironment (directory : String) (envName : String)
    (srcs : List String) : EnvironmentModel :=
  { name := envName
    sources := srcs.map (fun s => directory ++ "/" ++ s)
    prefixPath := directory ++ "/envs/" ++ envName
    lockfilePath := directory ++ "/" ++ envName ++ ".conda-lock.yml"
    condarc := directory ++ "/.condarc" }

/-- The ordered environment mapping of `CondaProject.environments`. -/
def environmentsOf (directory : String) (pf : CondaProjectYamlData) :
    List (String × EnvironmentModel) :=
  pf.environments.map (fun p => (p.1, mkEnvironment directory p.1 p.2))

/-- Embedding of `CondaProject.default_environment`: the first-declared
environment (`next(iter(...))`); `none` models the `StopIteration` of an
empty mapping. -/
def default_environment (directory : String) (pf : CondaProjectYamlData) :
    Option EnvironmentModel :=
  ((environmentsOf directory pf).head?).map (fun p => p.2)

/-- Lookup `self.environments[key]` (attribute access on the generated
environments model); `none` models the attribute error for an unknown
name. -/
def envLookup (directory : String) (pf : CondaProjectYamlData)
    (key : String) : Option EnvironmentModel :=
  ((environmentsOf directory pf).find? (fun p => p.1 == key)).map
    (fun p => p.2)

/-- Runtime `Command` record as built by `CondaProject.commands`. -/
structure CommandModel where
  name : String
  cmd : String
  environment : Option EnvironmentModel
  variables_ : List (String × Option String)
  directory : String
deriving Repr, DecidableEq

/-- Resolution of one `commands` entry in `CondaProject.commands`: a
plain string or a `Command` without an `environment` key gets the
default (first-declared) environment; a named environment is looked
up. -/
def resolveCommand (directory : String) (pf : CondaProjectYamlData)
    (nm : String) (c : CmdOrStr) : CommandModel :=
  match c with
  | .plain s =>
      { name := nm, cmd := s,
        environment := default_environment directory pf,
        variables_ := pf.variables_, directory := directory }
  | .cmdObj cmd envName =>
      { name := nm, cmd := cmd,
        environment :=
          match envName with
          | some e => envLookup directory pf e
          | none => default_environment directory pf,
        variables_ := pf.variables_, directory := directory }

/-- Embedding of the `CondaProject.commands` property: every declared
command resolved in order. -/
def commandsOf (directory : String) (pf : CondaProjectYamlData) :
    List (String × CommandModel) :=
  pf.commands.map (fun p => (p.1, resolveCommand directory pf p.1 p.2))

/-- Per-environment data consumed by `CondaProject.check`: the inputs of
`is_locked` plus the lockfile contents (`none` when the lockfile does
not exist). -/
structure CheckEnvCtx where
  mkSpec : MkSpec
  sources : List EnvironmentYamlData
  lockfile : Option Lock

/-- Status appended for one environment by the loop in
`CondaProject.check`: `False` when the lockfile is missing, `False` when
it is stale, `True` otherwise. -/
def envCheckStatus (defaultPlatforms : List String) (e : CheckEnvCtx) :
    Bool :=
  if e.lockfile.isNone then false
  else if !(is_locked e.mkSpec e.sources defaultPlatforms e.lockfile) then
    false
  else true

/-- Embedding of `CondaProject.check` (`src/conda_project/project.py`):
the conjunction (`all`) of the per-environment statuses. -/
def check (defaultPlatforms : List String) (envs : List CheckEnvCtx) :
    Bool :=
  (envs.map (envCheckStatus defaultPlatforms)).all id

/-- Recognized project descriptor filenames
(`PROJECT_YAML_FILENAMES` in `src/conda_project/project_file.py`). -/
def PROJECT_YAML_FILENAMES : List String :=
  ["conda-project.yml", "conda-project.yaml"]

/-- Recognized environment descriptor filenames
(`ENVIRONMENT_YAML_FILENAMES` in `src/conda_project/project_file.py`). -/
def ENVIRONMENT_YAML_FILENAMES : List String :=
  ["environment.yml", "environment.yaml"]

/-- Modelled from the spec: `find_file` lives in
`src/conda_project/utils.py`, which is not part of the provided sources.
Per the spec a descriptor is recognized under "one of two recognized
filenames"; `find_file` returns the first candidate filename present in
the directory, or `none` when no candidate exists. -/
def find_file (files : List String) (options : List String) :
    Option String :=
  options.find? (fun o => files.contains o)

/-- Directory snapshot seen by `CondaProject.__init__`: the directory's
basename and, per file in it, the `yaml.load` result of its contents
(`none` for an empty file). -/
structure DirectoryState where
  dirName : String
  files : List (String × Option (List (String × YamlVal)))

/-- Contents of file `p` in a directory snapshot; only consulted for
paths that `find_file` reported as present. -/
def contentOf (d : DirectoryState) (p : String) :
    Option (List (String × YamlVal)) :=
  ((d.files.find? (fun q => q.1 == p)).map (fun q => q.2)).getD none

/-- Error message of `CondaProject.__init__` when neither a project nor
an environment descriptor file is found. -/
def noDescriptorMessage : String :=
  "No Conda " ++ String.intercalate " or " ENVIRONMENT_YAML_FILENAMES ++
    " file was found."

/-- Embedding of `CondaProject.__init__` (`src/conda_project/project.py`):
parse the project descriptor when one is found (propagating its
`CondaProjectError` on empty or invalid content); otherwise fall back to
a recognized environment descriptor, synthesizing a project named after
the directory with the single environment `default`; otherwise raise. -/
def projectInit (d : DirectoryState) : Except String CondaProjectYamlData :=
  match find_file (d.files.map (fun p => p.1)) PROJECT_YAML_FILENAMES with
  | some p =>
      parse_yaml "CondaProjectYaml" p validateCondaProjectYaml (contentOf d p)
  | none =>
      match find_file (d.files.map (fun p => p.1))
          ENVIRONMENT_YAML_FILENAMES with
      | none => .error noDescriptorMessage
      | some envPath =>
          .ok { name := d.dirName,
                environments := [("default", [envPath])],
                variables_ := [], commands := [] }

/-- Sample lock-spec builder for evaluating the development on concrete
inputs: one requested platform with content hash `5`. -/
def mkSpecA : MkSpec :=
  fun _ _ _ =>
    { platforms := ["linux-64"], content_hash_for_platform := fun _ => 5 }

/-- Sample lockfile consistent with `mkSpecA`: matching platform and
hash, and a rendering with three header lines plus one annotated
package line. -/
def lockA : Lock :=
  { metadata := { platforms := ["linux-64"], content_hash := fun _ => 5 },
    rendered := fun _ =>
      ["# This file may be used to create an environment using:",
       "# platform: linux-64",
       "@EXPLICIT",
       "https://conda.anaconda.org/pkgs/main/pkg-1.0-0.conda#abc123"] }

/-- Sample `conda list --explicit` output matching `lockA`'s rendering
after comment stripping. -/
def installedGood : List String :=
  ["# packages in environment:",
   "#",
   "@EXPLICIT",
   "https://conda.anaconda.org/pkgs/main/pkg-1.0-0.conda"]

/-- Sample `conda list --explicit` output that disagrees with `lockA`'s
rendering. -/
def installedBad : List String :=
  ["# packages in environment:",
   "#",
   "@EXPLICIT",
   "https://conda.anaconda.org/pkgs/main/other-2.0-0.conda"]

/-- Sample prepare context: locked, history marker present, installed
listing inconsistent with the lockfile. -/
def ctxA : PrepareCtx :=
  { mkSpec := mkSpecA, sources := [], defaultPlatforms := ["linux-64"],
    lockfile := some lockA, historyExists := true,
    installedLines := installedBad, currentPlatform := "linux-64",
    prefixPath := "/proj/envs/default", gen := .success lockA }

/-- Sample prepare context on a platform missing from the lockfile. -/
def ctxB : PrepareCtx :=
  { ctxA with currentPlatform := "win-64" }

/-- Sample project file: two declared environments and one plain-string
command. -/
def pfA : CondaProjectYamlData :=
  { name := "proj",
    environments := [("default", ["environment.yml"]), ("test", ["env2.yml"])],
    variables_ := [],
    commands := [("run", CmdOrStr.plain "python app.py")] }

/-- Sample per-environment check context: locked and consistent. -/
def envCtxA : CheckEnvCtx :=
  { mkSpec := mkSpecA, sources := [], lockfile := some lockA }

/-- C1: `Environment.is_locked` returns false when no file exists at the
lockfile path; when the lockfile exists it returns true iff every
platform requested by the merged source specification (with the channel
and platform overrides applied) is present in the lockfile's recorded
platforms and the freshly computed content hash for that platform
equals the stored hash. -/
theorem is_locked_spec (mkSpec : MkSpec) (sources : List EnvironmentYamlData)
    (dps : List String) :
    is_locked mkSpec sources dps none = false ∧
    ∀ lk : Lock,
      (is_locked mkSpec sources dps (some lk) = true ↔
        ∀ p ∈ (mkSpec sources (overridesOf sources dps).1
            (overridesOf sources dps).2).platforms,
          p ∈ lk.metadata.platforms ∧
          (mkSpec sources (overridesOf sources dps).1
            (overridesOf sources dps).2).content_hash_for_platform p =
            lk.metadata.content_hash p) := by
  refine ⟨rfl, fun lk => ?_⟩
  simp [is_locked, List.all_eq_true, Bool.and_eq_true, List.elem_iff]

/-- C1 witness: a lockfile with the matching platform and hash is
locked on concrete data. -/
theorem is_locked_spec_witness :
    is_locked mkSpecA [] ["linux-64"] (some lockA) = true :=
  ((is_locked_spec mkSpecA [] ["linux-64"]).2 lockA).mpr (by
    intro p hp
    simp [mkSpecA] at hp
    subst hp
    exact ⟨by simp [lockA], rfl⟩)

/-- C2: `Environment.is_prepared` is false whenever the history marker
is missing or `is_locked` is false; when both hold it is true iff the
installed explicit listing with its header lines stripped equals,
element for element in order, the lockfile's rendering for the current
platform with headers dropped and trailing `#` comments stripped. -/
theorem is_prepared_spec (mkSpec : MkSpec) (sources : List EnvironmentYamlData)
    (dps : List String) (lockfile : Option Lock) (hist : Bool)
    (installed : List String) (cp : String) :
    (hist = false →
      is_prepared mkSpec sources dps lockfile hist installed cp = false) ∧
    (is_locked mkSpec sources dps lockfile = false →
      is_prepared mkSpec sources dps lockfile hist installed cp = false) ∧
    (∀ lk, lockfile = some lk → hist = true →
      is_locked mkSpec sources dps lockfile = true →
      (is_prepared mkSpec sources dps lockfile hist installed cp = true ↔
        installed.drop 3 = ((lk.rendered cp).drop 3).map stripComment)) := by
  refine ⟨fun h => ?_, fun h => ?_, fun lk hlk hh hl => ?_⟩
  · simp [is_prepared, h]
  · simp [is_prepared, h]
  · subst hlk
    subst hh
    simp [is_prepared, hl]

/-- C2 witness: with the marker present, a locked environment whose
installed listing matches the stripped rendering is prepared. -/
theorem is_prepared_spec_witness :
    is_prepared mkSpecA [] ["linux-64"] (some lockA) true installedGood
      "linux-64" = true :=
  ((is_prepared_spec mkSpecA [] ["linux-64"] (some lockA) true installedGood
      "linux-64").2.2 lockA rfl rfl rfl).mpr (by
    simp [installedGood, lockA, stripComment])

/-- C3: when the external lock generator fails, `Environment.lock`
raises the domain error whose message embeds the generator's message
with the channel-source reference substituted in, and the real lockfile
is left exactly as before; the fresh lockfile is installed only on
success. -/
theorem lock_failure_spec (mkSpec : MkSpec) (sources : List EnvironmentYamlData)
    (dps : List String) (m : String) (force : Bool) (lockfile : Option Lock)
    (h : (is_locked mkSpec sources dps lockfile && !force) = false) :
    (lock mkSpec sources dps (.failure m) force lockfile).err =
      some (lockErrorMessage m
        ((overridesOf sources dps).1.getD (mergeChannels sources))) ∧
    (lock mkSpec sources dps (.failure m) force lockfile).lockfile =
      lockfile ∧
    ∀ lk, (lock mkSpec sources dps (.success lk) force lockfile).lockfile =
      some lk := by
  refine ⟨?_, ?_, fun lk => ?_⟩ <;> simp [lock, h]

/-- C3 witness: a failing generator on an unlocked environment reports
the substituted message and leaves the (absent) lockfile absent, while a
succeeding one installs the fresh lockfile. -/
theorem lock_failure_spec_witness :
    (lock mkSpecA [] ["linux-64"]
        (.failure "could not solve for target environment") false none).err =
      some (lockErrorMessage "could not solve for target environment"
        ((overridesOf [] ["linux-64"]).1.getD (mergeChannels []))) ∧
    (lock mkSpecA [] ["linux-64"]
        (.failure "could not solve for target environment") false
        none).lockfile = none ∧
    (lock mkSpecA [] ["linux-64"] (.success lockA) false none).lockfile =
      some lockA :=
  ⟨(lock_failure_spec mkSpecA [] ["linux-64"]
      "could not solve for target environment" false none rfl).1,
   (lock_failure_spec mkSpecA [] ["linux-64"]
      "could not solve for target environment" false none rfl).2.1,
   (lock_failure_spec mkSpecA [] ["linux-64"]
      "could not solve for target environment" false none rfl).2.2 lockA⟩

/-- C4: on a locked environment whose prefix carries the history marker
but whose contents are inconsistent, `Environment.prepare` without force
returns the existing prefix path and performs no mutation: no create
call, no marker or ignore write, no variable application, and the
lockfile is untouched. -/
theorem prepare_inconsistent_noop (ctx : PrepareCtx)
    (hl : is_locked ctx.mkSpec ctx.sources ctx.defaultPlatforms
      ctx.lockfile = true)
    (hh : ctx.historyExists = true)
    (hp : is_prepared ctx.mkSpec ctx.sources ctx.defaultPlatforms
      ctx.lockfile ctx.historyExists ctx.installedLines
      ctx.currentPlatform = false) :
    prepare ctx false =
      { result := .ok ctx.prefixPath, effects := [],
        lockfile := ctx.lockfile } := by
  simp [prepare, hl, prepareAfterLock, hp, hh]

/-- C4 witness: the concrete locked-but-inconsistent context is returned
unchanged with no effects. -/
theorem prepare_inconsistent_noop_witness :
    prepare ctxA false =
      { result := .ok ctxA.prefixPath, effects := [],
        lockfile := ctxA.lockfile } :=
  prepare_inconsistent_noop ctxA rfl rfl rfl

/-- C5: when `Environment.prepare` proceeds to environment creation
(forced, or neither short-circuit applies) and the current platform is
not among the lockfile's locked platforms, it raises the domain error
and performs no side effect, in particular no create call. -/
theorem prepare_unsupported_platform (ctx : PrepareCtx) (force : Bool)
    (lk : Lock)
    (hl : is_locked ctx.mkSpec ctx.sources ctx.defaultPlatforms
      ctx.lockfile = true)
    (hlk : ctx.lockfile = some lk)
    (hreach : force = true ∨ (ctx.historyExists = false ∧
      is_prepared ctx.mkSpec ctx.sources ctx.defaultPlatforms ctx.lockfile
        ctx.historyExists ctx.installedLines ctx.currentPlatform = false))
    (hplat : lk.metadata.platforms.contains ctx.currentPlatform = false) :
    (prepare ctx force).result =
      .error (platformMessage ctx.currentPlatform) ∧
    (prepare ctx force).effects = [] := by
  rw [hlk] at hl
  have hmem : ctx.currentPlatform ∉ lk.metadata.platforms := by
    simpa using hplat
  have h1 : prepare ctx force = prepareAfterLock ctx (some lk) [] force := by
    simp [prepare, hlk, hl]
  rcases hreach with hf | ⟨hh, hp⟩
  · subst hf
    rw [h1]
    by_cases hp : is_prepared ctx.mkSpec ctx.sources ctx.defaultPlatforms
      (some lk) ctx.historyExists ctx.installedLines ctx.currentPlatform
    · constructor <;> simp [prepareAfterLock, hp, createSteps, hmem]
    · constructor <;> simp [prepareAfterLock, hp, createSteps, hmem]
  · rw [hlk, hh] at hp
    rw [h1]
    constructor <;> simp [prepareAfterLock, hp, hh, createSteps, hmem]

/-- C5 witness: forcing preparation on a platform absent from the
lockfile raises the platform error with no effects. -/
theorem prepare_unsupported_platform_witness :
    (prepare ctxB true).result = .error (platformMessage "win-64") ∧
    (prepare ctxB true).effects = [] :=
  prepare_unsupported_platform ctxB true lockA rfl rfl (Or.inl rfl) rfl

/-- C7: the dependency-list validator accepts exactly the lists whose
entries are plain strings or maps whose key set is exactly the single
reserved key `pip`, and raises for any map entry with any other key
set. -/
theorem only_pip_key_allowed_spec (v : List Dep) :
    (only_pip_key_allowed v = .ok v) ↔
      ∀ item ∈ v, ∀ entries, item = .map entries →
        (∀ q ∈ entries, q.1 = "pip") ∧ ∃ q ∈ entries, q.1 = "pip" := by
  have hok : (only_pip_key_allowed v = .ok v) ↔
      v.find? (fun item =>
        match item with
        | .str _ => false
        | .map entries => !keysArePipOnly entries) = none := by
    unfold only_pip_key_allowed
    cases v.find? (fun item =>
        match item with
        | .str _ => false
        | .map entries => !keysArePipOnly entries) with
    | none => simp
    | some a => simp
  rw [hok, List.find?_eq_none]
  constructor
  · intro h item hmem entries hitem
    have h2 := h item hmem
    rw [hitem] at h2
    simp [keysArePipOnly, List.all_eq_true, List.any_eq_true] at h2
    obtain ⟨h3, x, hx⟩ := h2
    exact ⟨fun q hq => h3 q.1 q.2 hq, ⟨("pip", x), hx, rfl⟩⟩
  · intro h item hmem
    cases item with
    | str s => simp
    | map entries =>
        obtain ⟨h3, q, hq, hq1⟩ := h (Dep.map entries) hmem entries rfl
        simp [keysArePipOnly, List.all_eq_true, List.any_eq_true]
        refine ⟨fun a b hab => h3 (a, b) hab, ⟨q.2, ?_⟩⟩
        rw [← hq1]
        exact hq

/-- C7 witness: a list with a plain string and a sole-key `pip` map is
accepted. -/
theorem only_pip_key_allowed_spec_witness :
    only_pip_key_allowed
        [Dep.str "python", Dep.map [("pip", ["requests"])]] =
      .ok [Dep.str "python", Dep.map [("pip", ["requests"])]] :=
  (only_pip_key_allowed_spec
      [Dep.str "python", Dep.map [("pip", ["requests"])]]).mpr (by
    intro item hmem entries hitem
    simp only [List.mem_cons, List.not_mem_nil, or_false] at hmem
    rcases hmem with h | h
    · subst h
      exact Dep.noConfusion hitem
    · subst h
      injection hitem with he
      subst he
      decide)

/-- C9: `CondaProject.check` returns true iff every declared environment
has an existing lockfile that is up to date; a missing or stale lockfile
contributes a failure, and the project-level result is the conjunction
over all environments. -/
theorem check_spec (dps : List String) (envs : List CheckEnvCtx) :
    check dps envs = true ↔
      ∀ e ∈ envs, e.lockfile.isSome = true ∧
        is_locked e.mkSpec e.sources dps e.lockfile = true := by
  have hpt : ∀ e : CheckEnvCtx, envCheckStatus dps e = true ↔
      (e.lockfile.isSome = true ∧
        is_locked e.mkSpec e.sources dps e.lockfile = true) := by
    intro e
    unfold envCheckStatus
    cases hl : e.lockfile with
    | none => simp [hl, is_locked]
    | some lk =>
        by_cases h2 : is_locked e.mkSpec e.sources dps (some lk) = true
        · simp [hl, h2]
        · simp [hl, h2]
  unfold check
  rw [List.all_eq_true]
  constructor
  · intro h e he
    exact (hpt e).mp (h (envCheckStatus dps e) (List.mem_map_of_mem _ he))
  · intro h x hx
    obtain ⟨e, he, rfl⟩ := List.mem_map.mp hx
    exact (hpt e).mpr (h e he)

/-- C9 witness: a single locked, up-to-date environment passes the
project check. -/
theorem check_spec_witness : check ["linux-64"] [envCtxA] = true :=
  (check_spec ["linux-64"] [envCtxA]).mpr (by
    intro e he
    rw [List.mem_singleton] at he
    subst he
    exact ⟨rfl, rfl⟩)

/-- Helper: a document carrying a key outside the `CondaProjectYaml`
schema fails validation. -/
theorem validateProject_error_of_extra (d : List (String × YamlVal))
    (k : String) (v : YamlVal) (hm : (k, v) ∈ d)
    (hk : allowedProjectKeys.contains k = false) :
    ∃ e, validateCondaProjectYaml d = .error e := by
  cases hfind : d.find? (fun p => !(allowedProjectKeys.contains p.1)) with
  | some p =>
      refine ⟨"extra fields not permitted: " ++ p.1, ?_⟩
      unfold validateCondaProjectYaml
      rw [hfind]
  | none =>
      exfalso
      have h2 := List.find?_eq_none.mp hfind (k, v) hm
      exact absurd h2 (by simpa using hk)

/-- Helper: a document missing the required `name` key fails
validation. -/
theorem validateProject_error_of_missing_name (d : List (String × YamlVal))
    (h : lookupKey d "name" = none) :
    ∃ e, validateCondaProjectYaml d = .error e := by
  cases hfind : d.find? (fun p => !(allowedProjectKeys.contains p.1)) with
  | some p =>
      refine ⟨"extra fields not permitted: " ++ p.1, ?_⟩
      unfold validateCondaProjectYaml
      rw [hfind]
  | none =>
      refine ⟨"name: field required", ?_⟩
      unfold validateCondaProjectYaml
      rw [hfind, h]

/-- C6: `parse_yaml` raises the domain error naming the offending file
and the descriptor class for an empty file, and with the validation
detail appended for any schema violation (in particular unknown keys and
missing required keys); a schema-conforming document parses into the
descriptor record. -/
theorem parse_yaml_spec (fn : String) :
    parse_yaml "CondaProjectYaml" fn validateCondaProjectYaml none =
      .error ("Failed to read " ++ fn ++ " as " ++ "CondaProjectYaml" ++
        ". The file appears to be empty.") ∧
    (∀ d e, validateCondaProjectYaml d = .error e →
      parse_yaml "CondaProjectYaml" fn validateCondaProjectYaml (some d) =
        .error ("Failed to read " ++ fn ++ " as " ++ "CondaProjectYaml" ++
          "\n" ++ e)) ∧
    (∀ d k v, (k, v) ∈ d → allowedProjectKeys.contains k = false →
      ∃ e, parse_yaml "CondaProjectYaml" fn validateCondaProjectYaml
          (some d) =
        .error ("Failed to read " ++ fn ++ " as " ++ "CondaProjectYaml" ++
          "\n" ++ e)) ∧
    (∀ d, lookupKey d "name" = none →
      ∃ e, parse_yaml "CondaProjectYaml" fn validateCondaProjectYaml
          (some d) =
        .error ("Failed to read " ++ fn ++ " as " ++ "CondaProjectYaml" ++
          "\n" ++ e)) ∧
    (∀ d x, validateCondaProjectYaml d = .ok x →
      parse_yaml "CondaProjectYaml" fn validateCondaProjectYaml (some d) =
        .ok x) := by
  refine ⟨rfl, fun d e h => ?_, fun d k v hm hk => ?_, fun d h => ?_,
    fun d x h => ?_⟩
  · simp [parse_yaml, h]
  · obtain ⟨e, he⟩ := validateProject_error_of_extra d k v hm hk
    exact ⟨e, by simp [parse_yaml, he]⟩
  · obtain ⟨e, he⟩ := validateProject_error_of_missing_name d h
    exact ⟨e, by simp [parse_yaml, he]⟩
  · simp [parse_yaml, h]

/-- C6 witness: a document with an unknown key is rejected with the
message naming the file, the class and the detail. -/
theorem parse_yaml_spec_witness :
    parse_yaml "CondaProjectYaml" "conda-project.yml"
        validateCondaProjectYaml (some [("bogus", YamlVal.nullV)]) =
      .error ("Failed to read " ++ "conda-project.yml" ++ " as " ++
        "CondaProjectYaml" ++ "\n" ++ "extra fields not permitted: bogus") :=
  (parse_yaml_spec "conda-project.yml").2.1 [("bogus", YamlVal.nullV)]
    "extra fields not permitted: bogus" rfl

/-- C8: a plain-string command, and a command map without an
`environment` key, resolve to the project's first-declared environment;
a command naming an environment resolves to the named one.  The default
environment is the head of the declared environment mapping, and every
declared command is resolved this way by the `commands` property. -/
theorem commands_env_resolution (directory : String)
    (pf : CondaProjectYamlData) (nm : String) :
    (∀ s, (resolveCommand directory pf nm (.plain s)).environment =
      default_environment directory pf) ∧
    (∀ s, (resolveCommand directory pf nm (.cmdObj s none)).environment =
      default_environment directory pf) ∧
    (∀ s e, (resolveCommand directory pf nm (.cmdObj s (some e))).environment
      = envLookup directory pf e) ∧
    (∀ envName srcs rest, pf.environments = (envName, srcs) :: rest →
      default_environment directory pf =
        some (mkEnvironment directory envName srcs)) ∧
    (∀ e em, envLookup directory pf e = some em → em.name = e) ∧
    (∀ p ∈ pf.commands,
      (p.1, resolveCommand directory pf p.1 p.2) ∈
        commandsOf directory pf) := by
  refine ⟨fun s => rfl, fun s => rfl, fun s e => rfl,
    fun envName srcs rest h => ?_, fun e em h => ?_, fun p hp => ?_⟩
  · simp [default_environment, environmentsOf, h]
  · unfold envLookup at h
    obtain ⟨q, hq, hq2⟩ := Option.map_eq_some'.mp h
    subst hq2
    have h1 : q.1 = e := by simpa using List.find?_some hq
    have hmem := List.mem_of_find?_eq_some hq
    unfold environmentsOf at hmem
    obtain ⟨orig, _, horig⟩ := List.mem_map.mp hmem
    have h2 : q.2.name = q.1 := by
      rw [← horig]
      rfl
    rw [h2, h1]
  · unfold commandsOf
    exact List.mem_map_of_mem _ hp

/-- C8 witness: on the sample project the plain command resolves to the
first-declared environment `default`, and appears among the resolved
commands. -/
theorem commands_env_resolution_witness :
    (resolveCommand "/proj" pfA "run"
        (CmdOrStr.plain "python app.py")).environment =
      default_environment "/proj" pfA ∧
    default_environment "/proj" pfA =
      some (mkEnvironment "/proj" "default" ["environment.yml"]) ∧
    ("run", resolveCommand "/proj" pfA "run"
      (CmdOrStr.plain "python app.py")) ∈ commandsOf "/proj" pfA :=
  ⟨(commands_env_resolution "/proj" pfA "run").1 "python app.py",
   (commands_env_resolution "/proj" pfA "run").2.2.2.1 "default"
     ["environment.yml"] [("test", ["env2.yml"])] rfl,
   (commands_env_resolution "/proj" pfA "run").2.2.2.2.2
     ("run", CmdOrStr.plain "python app.py") (by simp [pfA])⟩

/-- C10 counterexample: a directory that does contain a recognized
project descriptor file (an empty `conda-project.yml`) still raises the
domain error, refuting the claim that the constructor raises if and only
if neither descriptor file is found. -/
theorem projectInit_raises_despite_descriptor :
    projectInit
      { dirName := "proj", files := [("conda-project.yml", none)] } =
      .error ("Failed to read " ++ "conda-project.yml" ++ " as " ++
        "CondaProjectYaml" ++ ". The file appears to be empty.") ∧
    find_file ["conda-project.yml"] PROJECT_YAML_FILENAMES =
      some "conda-project.yml" :=
  ⟨rfl, rfl⟩

/-- C10 (amended): without a project descriptor but with a recognized
environment descriptor, construction succeeds with the directory's name
and the single environment `default` sourced from that file; with
neither descriptor it raises the domain error; when a project descriptor
is found its parse outcome (including parse failures on empty or invalid
content) is the constructor's outcome. -/
theorem projectInit_spec (d : DirectoryState) :
    (∀ p, find_file (d.files.map (fun q => q.1)) PROJECT_YAML_FILENAMES =
        none →
      find_file (d.files.map (fun q => q.1)) ENVIRONMENT_YAML_FILENAMES =
        some p →
      projectInit d = .ok
        { name := d.dirName, environments := [("default", [p])],
          variables_ := [], commands := [] }) ∧
    (find_file (d.files.map (fun q => q.1)) PROJECT_YAML_FILENAMES = none →
      find_file (d.files.map (fun q => q.1)) ENVIRONMENT_YAML_FILENAMES =
        none →
      projectInit d = .error noDescriptorMessage) ∧
    (∀ p, find_file (d.files.map (fun q => q.1)) PROJECT_YAML_FILENAMES =
        some p →
      projectInit d = parse_yaml "CondaProjectYaml" p
        validateCondaProjectYaml (contentOf d p)) := by
  refine ⟨fun p h1 h2 => ?_, fun h1 h2 => ?_, fun p h1 => ?_⟩
  · simp [projectInit, h1, h2]
  · simp [projectInit, h1, h2]
  · simp [projectInit, h1]

/-- C10 witness: a directory holding only an (empty) `environment.yml`
yields the synthesized default project. -/
theorem projectInit_spec_witness :
    projectInit
      { dirName := "proj", files := [("environment.yml", none)] } =
      .ok
        { name := "proj",
          environments := [("default", ["environment.yml"])],
          variables_ := [], commands := [] } :=
  (projectInit_spec
    { dirName := "proj", files := [("environment.yml", none)] }).1
    "environment.yml" rfl rfl
